import Mathlib

/-!
Shallow embedding of the Go package `workerpool` (worker-pool/workerpool/pool.go):
a fixed-size worker pool with graceful shutdown, context-based cancellation and
atomic counters.

Modelling conventions:
* Go `error` values are the first-order datatype `GoError`; `fmt.Errorf` without
  `%w` is `GoError.errorString`, with `%w` it is `GoError.wrapped`;
  `errors.Is`-style unwrapping is `GoError.errorIs`.
* A `Job` (`func(ctx context.Context) error`) is a function from the observable
  of the context it receives — whether that context is already cancelled — to
  the error it returns (`none` = nil).
* The `jobs` channel is a FIFO `List Job` plus a `jobsClosed` flag; `sync.Once`
  is the `onceDone` flag; the `closed int32` is a `Bool`; `cancelWorkers` /
  `workerCtx` is the `workerCtxCancelled` latch.
* Scheduler and environment nondeterminism is resolved by explicit parameters:
  `ctxDoneWins` says which case of `Submit`'s `select` fired, `timedOut` says
  whether the `ShutdownTimeout` elapsed before `wg.Wait` returned.
* Two instrumentation counters (`inFlight`, `skipped`) record, without altering
  behaviour, how many jobs are mid-execution (Started recorded, outcome not yet)
  and how many were recorded Failed on the cancelled-skip path without running.
* `make(chan Job, n)` panics at runtime when `n < 0` (the size must be
  non-negative), so `New` returns `Option Pool`, `none` modelling that panic.
-/

namespace workerpool

/-- `time.Second` as a Go `time.Duration` (int64 nanoseconds). -/
def time.Second : Int := 1000000000

/-- Go `error` values used by the pool, as a first-order datatype. -/
inductive GoError where
  | errorString (msg : String)
  | wrapped (msg : String) (inner : GoError)
  | canceled
  | deadlineExceeded
deriving DecidableEq

/-- `errors.Is(err, target)`: equality, unwrapping through `%w` wrapping. -/
def GoError.errorIs : GoError → GoError → Bool
  | .wrapped msg inner, target =>
      if GoError.wrapped msg inner = target then true else GoError.errorIs inner target
  | e, target => if e = target then true else false

/-- Sentinel `ErrPoolClosed` (pool.go `var` block). -/
def ErrPoolClosed : GoError := .errorString "worker pool is closed"

/-- Sentinel `ErrShutdownTimeout` (pool.go `var` block). -/
def ErrShutdownTimeout : GoError := .errorString "shutdown timeout elapsed; workers were force-cancelled"

/-- A `Job` maps the cancellation status of the context it is invoked with to
the error it returns (`none` = success). -/
def Job : Type := Bool → Option GoError

/-- `Config` (pool.go). `Workers`, `QueueSize` are Go `int`; `ShutdownTimeout`
is a `time.Duration`; `Logger` is a `*log.Logger`, modelled as an optional
abstract handle. -/
structure Config where
  Workers : Int
  QueueSize : Int
  ShutdownTimeout : Int
  Logger : Option Nat
deriving DecidableEq

/-- The handle `log.Default()` returns. -/
def logDefault : Nat := 0

/-- `(*Config).withDefaults`, with the receiver's state threaded through:
the result is `(final receiver state, returned Config)`. The Go body copies
the receiver (`out := *c`) and mutates only the copy, so the receiver
component is returned as it came in. -/
def Config.withDefaultsState (c : Config) : Config × Config :=
  let out := c
  let out := if out.Workers ≤ 0 then { out with Workers := 1 } else out
  let out := if out.ShutdownTimeout ≤ 0 then { out with ShutdownTimeout := 30 * time.Second } else out
  let out := if out.Logger = none then { out with Logger := some logDefault } else out
  (c, out)

/-- The value `(*Config).withDefaults` returns. -/
def Config.withDefaults (c : Config) : Config := (Config.withDefaultsState c).2

/-- `Metrics` (pool.go): five monotone counters, Go `int64`. -/
structure Metrics where
  Submitted : Nat
  Started : Nat
  Succeeded : Nat
  Failed : Nat
  Dropped : Nat
deriving DecidableEq

/-- The observable state of a `Pool` plus instrumentation (`inFlight`,
`skipped`) that only counts events and never feeds back into behaviour. -/
structure Pool where
  cfg : Config
  jobs : List Job
  jobsClosed : Bool
  metrics : Metrics
  workerCtxCancelled : Bool
  onceDone : Bool
  closed : Bool
  inFlight : Nat
  skipped : Nat

/-- `New` (pool.go): apply defaults, create the jobs channel, start workers.
`make(chan Job, n)` panics for `n < 0`, modelled by `none`. -/
def New (cfg : Config) : Option Pool :=
  let cfg := Config.withDefaults cfg
  if cfg.QueueSize < 0 then none
  else some
    { cfg := cfg
      jobs := []
      jobsClosed := false
      metrics := ⟨0, 0, 0, 0, 0⟩
      workerCtxCancelled := false
      onceDone := false
      closed := false
      inFlight := 0
      skipped := 0 }

/-- `(*Pool).Submit` (pool.go lines 115–131). `ctxDoneWins` resolves the
`select`: `true` means `<-ctx.Done()` fired (the caller's context, whose
`Err()` is `ctxErr`, ended before the send could proceed); `false` means the
send `p.jobs <- job` proceeded. Returns the new pool state and the error. -/
def Pool.Submit (p : Pool) (job : Job) (ctxDoneWins : Bool) (ctxErr : GoError) :
    Pool × Option GoError :=
  if p.closed = true then
    ({ p with metrics := { p.metrics with Dropped := p.metrics.Dropped + 1 } },
      some ErrPoolClosed)
  else
    let p₁ := { p with metrics := { p.metrics with Submitted := p.metrics.Submitted + 1 } }
    if ctxDoneWins = true then
      ({ p₁ with metrics := { p₁.metrics with Dropped := p₁.metrics.Dropped + 1 } },
        some (GoError.wrapped "submit cancelled" ctxErr))
    else
      ({ p₁ with jobs := p₁.jobs ++ [job] }, none)

/-- `(*Pool).Shutdown` (pool.go lines 142–177). `timedOut` says whether
`time.After(p.cfg.ShutdownTimeout)` fired before `p.wg.Wait()` completed.
The local `shutdownErr` is only assigned inside the `once.Do` body, so a call
that skips the body returns `nil`. -/
def Pool.Shutdown (p : Pool) (timedOut : Bool) : Pool × Option GoError :=
  if p.onceDone = true then (p, none)
  else
    let p₁ := { p with closed := true, jobsClosed := true, onceDone := true }
    if timedOut = true then
      ({ p₁ with workerCtxCancelled := true }, some ErrShutdownTimeout)
    else
      (p₁, none)

/-- A sequence of `Shutdown` calls, one per entry of `timedOuts`; returns the
final pool state and the list of results in call order. -/
def Pool.shutdownCalls (p : Pool) : List Bool → Pool × List (Option GoError)
  | [] => (p, [])
  | b :: bs =>
    let s := Pool.Shutdown p b
    let rest := Pool.shutdownCalls s.1 bs
    (rest.1, s.2 :: rest.2)

/-- The head of one worker-loop iteration after a job has been received
(runWorker, pool.go lines 196–202 and 204): check `p.workerCtx.Err()`; on the
skip path record Failed (and bump the `skipped` instrumentation counter), else
record Started (and open an `inFlight` slot for the invocation). -/
def Pool.workerBegin (p : Pool) : Pool :=
  if p.workerCtxCancelled = true then
    { p with metrics := { p.metrics with Failed := p.metrics.Failed + 1 }
             skipped := p.skipped + 1 }
  else
    { p with metrics := { p.metrics with Started := p.metrics.Started + 1 }
             inFlight := p.inFlight + 1 }

/-- The tail of a worker-loop iteration (runWorker, pool.go lines 206–211):
the invoked job returned `r`; record Succeeded or Failed and close the
`inFlight` slot. -/
def Pool.workerFinish (p : Pool) (r : Option GoError) : Pool :=
  match r with
  | some _ =>
    { p with metrics := { p.metrics with Failed := p.metrics.Failed + 1 }
             inFlight := p.inFlight - 1 }
  | none =>
    { p with metrics := { p.metrics with Succeeded := p.metrics.Succeeded + 1 }
             inFlight := p.inFlight - 1 }

/-- Receive on `range p.jobs` when a job is queued, then run the begin step of
the loop body for it. `none` when the channel is empty (the worker blocks or,
once the channel is closed, exits). -/
def Pool.workerFetch (p : Pool) : Option Pool :=
  match p.jobs with
  | [] => none
  | _ :: rest => some (Pool.workerBegin { p with jobs := rest })

/-- One whole worker-loop iteration on the dequeued job `j` (runWorker body,
pool.go lines 196–212): the cancelled check, then — only on the non-cancelled
path — invoke `j` with the shared `workerCtx` and record its outcome. -/
def Pool.workerIteration (p : Pool) (j : Job) : Pool :=
  if p.workerCtxCancelled = true then Pool.workerBegin p
  else Pool.workerFinish (Pool.workerBegin p) (j p.workerCtxCancelled)

/-- The states a pool can be in: freshly constructed, or reached by a
`Submit` call, a `Shutdown` call, or a worker processing the queue. -/
inductive Reachable : Pool → Prop
  | init (cfg : Config) (p : Pool) : New cfg = some p → Reachable p
  | submit (p : Pool) (j : Job) (w : Bool) (e : GoError) :
      Reachable p → Reachable (Pool.Submit p j w e).1
  | shutdown (p : Pool) (b : Bool) :
      Reachable p → Reachable (Pool.Shutdown p b).1
  | workerBeginStep (p q : Pool) :
      Reachable p → Pool.workerFetch p = some q → Reachable q
  | workerFinishStep (p : Pool) (r : Option GoError) :
      Reachable p → 0 < p.inFlight → Reachable (Pool.workerFinish p r)

/-- The inductive counter invariant the transitions preserve. -/
def Inv (p : Pool) : Prop :=
  p.metrics.Started + p.skipped + p.jobs.length ≤ p.metrics.Submitted ∧
  p.metrics.Succeeded + p.metrics.Failed + p.inFlight = p.metrics.Started + p.skipped

/-- A job that always succeeds, for concrete runs. -/
def demoJob : Job := fun _ => none

/-- The pool `New ⟨1, 0, 1, none⟩` constructs. -/
def demoPool : Pool :=
  { cfg := ⟨1, 0, 1, some logDefault⟩
    jobs := []
    jobsClosed := false
    metrics := ⟨0, 0, 0, 0, 0⟩
    workerCtxCancelled := false
    onceDone := false
    closed := false
    inFlight := 0
    skipped := 0 }

/-- The state reached from `New ⟨1, 1, 1, none⟩` by: submit `demoJob`
(enqueued), first `Shutdown` with the timeout elapsing (forced cancellation),
then the single worker dequeuing the job and skipping it. -/
def skewedPool : Pool :=
  { cfg := ⟨1, 1, 1, some logDefault⟩
    jobs := []
    jobsClosed := true
    metrics := ⟨1, 0, 0, 1, 0⟩
    workerCtxCancelled := true
    onceDone := true
    closed := true
    inFlight := 0
    skipped := 1 }

/-! ## Helper lemmas -/

theorem errorIs_self (e : GoError) : GoError.errorIs e e = true := by
  cases e <;> simp [GoError.errorIs]

theorem errorIs_wrapped (msg : String) (e : GoError) :
    GoError.errorIs (GoError.wrapped msg e) e = true := by
  simp only [GoError.errorIs]
  split
  · rfl
  · exact errorIs_self e

theorem shutdown_noop {p : Pool} (h : p.onceDone = true) (b : Bool) :
    Pool.Shutdown p b = (p, none) := by
  unfold Pool.Shutdown
  simp [h]

theorem shutdown_once_after {p : Pool} (h : p.onceDone = false) (b : Bool) :
    (Pool.Shutdown p b).1.onceDone = true := by
  unfold Pool.Shutdown
  simp only [h, Bool.false_eq_true, if_false]
  split <;> rfl

theorem shutdown_closes {p : Pool} (h : p.onceDone = false) (b : Bool) :
    (Pool.Shutdown p b).1.closed = true := by
  unfold Pool.Shutdown
  simp only [h, Bool.false_eq_true, if_false]
  split <;> rfl

theorem shutdownCalls_noop {p : Pool} (h : p.onceDone = true) (bs : List Bool) :
    Pool.shutdownCalls p bs = (p, List.replicate bs.length none) := by
  induction bs with
  | nil => rfl
  | cons b bs ih =>
    simp only [Pool.shutdownCalls, shutdown_noop h b, ih, List.length_cons,
      List.replicate_succ]

theorem new_inv {cfg : Config} {p : Pool} (h : New cfg = some p) : Inv p := by
  unfold New at h
  dsimp only at h
  split at h
  · exact absurd h (by simp)
  · cases h
    exact ⟨by simp, by simp⟩

theorem reachable_inv {p : Pool} (h : Reachable p) : Inv p := by
  induction h with
  | init cfg p hN => exact new_inv hN
  | submit p j w e hp ih =>
    obtain ⟨ih1, ih2⟩ := ih
    unfold Pool.Submit
    split
    · exact ⟨by simpa using ih1, by simpa using ih2⟩
    · split
      · exact ⟨by simp; omega, by simpa using ih2⟩
      · exact ⟨by simp; omega, by simpa using ih2⟩
  | shutdown p b hp ih =>
    obtain ⟨ih1, ih2⟩ := ih
    unfold Pool.Shutdown
    split
    · exact ⟨ih1, ih2⟩
    · split
      · exact ⟨by simpa using ih1, by simpa using ih2⟩
      · exact ⟨by simpa using ih1, by simpa using ih2⟩
  | workerBeginStep p q hp hf ih =>
    obtain ⟨ih1, ih2⟩ := ih
    unfold Pool.workerFetch at hf
    split at hf
    · exact absurd hf (by simp)
    · rename_i j rest hjobs
      cases hf
      rw [hjobs] at ih1
      simp only [List.length_cons] at ih1
      unfold Pool.workerBegin
      split
      · exact ⟨by simp; omega, by simp; omega⟩
      · exact ⟨by simp; omega, by simp; omega⟩
  | workerFinishStep p r hp hpos ih =>
    obtain ⟨ih1, ih2⟩ := ih
    unfold Pool.workerFinish
    split
    · exact ⟨by simpa using ih1, by simp; omega⟩
    · exact ⟨by simpa using ih1, by simp; omega⟩

theorem withDefaults_QueueSize (c : Config) :
    (Config.withDefaults c).QueueSize = c.QueueSize := by
  unfold Config.withDefaults Config.withDefaultsState
  dsimp only
  split_ifs <;> rfl

theorem withDefaults_Workers (c : Config) :
    (Config.withDefaults c).Workers = if c.Workers ≤ 0 then 1 else c.Workers := by
  unfold Config.withDefaults Config.withDefaultsState
  dsimp only
  split_ifs <;> rfl

theorem withDefaults_ShutdownTimeout (c : Config) :
    (Config.withDefaults c).ShutdownTimeout
      = if c.ShutdownTimeout ≤ 0 then 30 * time.Second else c.ShutdownTimeout := by
  unfold Config.withDefaults Config.withDefaultsState
  dsimp only
  split_ifs with h1 h2 <;> simp_all

/-! ## Claims -/

/-- C1 (counterexample): repeated `Shutdown` calls do not return the first
call's outcome. On the pool `New ⟨1, 0, 1, none⟩` builds, a first call whose
timeout elapsed returns `ErrShutdownTimeout`, but the second call returns
`nil` — the `sync.Once` body is skipped and the local `shutdownErr` is never
assigned. -/
theorem shutdown_second_call_result_differs :
    New ⟨1, 0, 1, none⟩ = some demoPool
  ∧ (Pool.Shutdown demoPool true).2 = some ErrShutdownTimeout
  ∧ (Pool.Shutdown (Pool.Shutdown demoPool true).1 true).2 = none
  ∧ (Pool.Shutdown (Pool.Shutdown demoPool true).1 true).2
      ≠ (Pool.Shutdown demoPool true).2 := by
  refine ⟨rfl, rfl, rfl, ?_⟩
  decide

/-- C1 (amended): calling `Shutdown` N ≥ 1 times performs the drain/cancel
protocol exactly once — the pool state after the whole sequence is the state
the first call produced — and every call after the first returns `nil`
regardless of the first call's outcome (so when the first call returned the
`ShutdownTimeout` failure, later calls do not repeat it). -/
theorem shutdown_later_calls_return_nil (p : Pool) (h : p.onceDone = false)
    (b : Bool) (bs : List Bool) :
    (Pool.shutdownCalls p (b :: bs)).1 = (Pool.Shutdown p b).1
  ∧ (Pool.shutdownCalls p (b :: bs)).2
      = (Pool.Shutdown p b).2 :: List.replicate bs.length none := by
  have hd := shutdown_once_after h b
  have hcalls := shutdownCalls_noop hd bs
  simp [Pool.shutdownCalls, hcalls]

/-- C1 (witness): three `Shutdown` calls on the demo pool with the first one
timing out yield the results `[ErrShutdownTimeout, nil, nil]`. -/
theorem shutdown_later_calls_return_nil_witness :
    (Pool.shutdownCalls demoPool [true, false, true]).2
      = [some ErrShutdownTimeout, none, none] := by
  have h := shutdown_later_calls_return_nil demoPool rfl true [false, true]
  rw [h.2]
  rfl

/-- C2 (counterexample): `skewedPool` is reachable — submit one job, shut down
with the timeout elapsing, let the worker dequeue the job after cancellation —
and is quiescent (empty queue, nothing in flight), yet
`Succeeded + Failed = 1 > 0 = Started`: the skip path increments Failed
without incrementing Started, refuting both `Succeeded + Failed ≤ Started`
and the quiescent equality `Started == Succeeded + Failed`. -/
theorem metrics_skip_violates_started_bound :
    Reachable skewedPool
  ∧ skewedPool.jobs = []
  ∧ skewedPool.inFlight = 0
  ∧ skewedPool.metrics.Started < skewedPool.metrics.Succeeded + skewedPool.metrics.Failed
  ∧ skewedPool.metrics = ⟨1, 0, 0, 1, 0⟩ := by
  refine ⟨?_, rfl, rfl, by decide, rfl⟩
  apply Reachable.workerBeginStep
    ((Pool.Shutdown
      (Pool.Submit { demoPool with cfg := ⟨1, 1, 1, some logDefault⟩ }
        demoJob false GoError.canceled).1 true).1)
  · apply Reachable.shutdown
    apply Reachable.submit
    exact Reachable.init ⟨1, 1, 1, none⟩ _ rfl
  · rfl

/-- C2 (amended): in every reachable pool state, `Started ≤ Submitted` and
`Succeeded + Failed ≤ Started + skipped`, where `skipped` counts the jobs a
worker recorded as Failed without executing them after pool-wide cancellation;
moreover `Succeeded + Failed + inFlight = Started + skipped` always holds, so
at every quiescent point (`inFlight = 0`) `Started + skipped == Succeeded +
Failed` — the claim's `Succeeded + Failed ≤ Started` and quiescent
`Started == Succeeded + Failed` hold only when no job was skipped. -/
theorem metrics_invariant_with_skips (p : Pool) (h : Reachable p) :
    p.metrics.Started ≤ p.metrics.Submitted
  ∧ p.metrics.Succeeded + p.metrics.Failed ≤ p.metrics.Started + p.skipped
  ∧ p.metrics.Succeeded + p.metrics.Failed + p.inFlight
      = p.metrics.Started + p.skipped := by
  obtain ⟨h1, h2⟩ := reachable_inv h
  exact ⟨by omega, by omega, h2⟩

/-- C2 (witness): the invariant instantiated at the freshly built demo pool. -/
theorem metrics_invariant_with_skips_witness :
    demoPool.metrics.Started ≤ demoPool.metrics.Submitted
  ∧ demoPool.metrics.Succeeded + demoPool.metrics.Failed
      ≤ demoPool.metrics.Started + demoPool.skipped
  ∧ demoPool.metrics.Succeeded + demoPool.metrics.Failed + demoPool.inFlight
      = demoPool.metrics.Started + demoPool.skipped :=
  metrics_invariant_with_skips demoPool (Reachable.init ⟨1, 0, 1, none⟩ demoPool rfl)

/-- C3 (confirmed): one worker-loop iteration on a dequeued job: when the
shared cancellation signal is already active, Started is untouched, Failed is
incremented (and the skip counter records that the body never ran); otherwise
Started is incremented and exactly one of Succeeded (job returned `nil`) or
Failed (otherwise) is incremented; Submitted and Dropped are never touched. -/
theorem worker_iteration_counters (p : Pool) (j : Job) :
    (Pool.workerIteration p j).metrics.Started
      = p.metrics.Started + (if p.workerCtxCancelled = true then 0 else 1)
  ∧ (Pool.workerIteration p j).metrics.Succeeded
      = p.metrics.Succeeded
          + (if p.workerCtxCancelled = false ∧ j p.workerCtxCancelled = none then 1 else 0)
  ∧ (Pool.workerIteration p j).metrics.Failed
      = p.metrics.Failed
          + (if p.workerCtxCancelled = true ∨ (j p.workerCtxCancelled).isSome = true
              then 1 else 0)
  ∧ (Pool.workerIteration p j).metrics.Submitted = p.metrics.Submitted
  ∧ (Pool.workerIteration p j).metrics.Dropped = p.metrics.Dropped
  ∧ (Pool.workerIteration p j).skipped
      = p.skipped + (if p.workerCtxCancelled = true then 1 else 0) := by
  unfold Pool.workerIteration Pool.workerBegin Pool.workerFinish
  rcases hc : p.workerCtxCancelled with _ | _
  · rcases hj : j false with _ | e <;> simp [hc, hj]
  · simp [hc]

/-- C4 (confirmed): any `Submit` after a first `Shutdown` call finds the pool
flagged closed, returns the `ErrPoolClosed` sentinel, increments Dropped by
exactly one, and leaves the jobs queue untouched, so the job is never
delivered to a worker. -/
theorem submit_after_shutdown_rejected (p : Pool) (b : Bool) (h : p.onceDone = false)
    (j : Job) (w : Bool) (e : GoError) :
    (Pool.Shutdown p b).1.closed = true
  ∧ (Pool.Submit (Pool.Shutdown p b).1 j w e).2 = some ErrPoolClosed
  ∧ (Pool.Submit (Pool.Shutdown p b).1 j w e).1.metrics.Dropped
      = (Pool.Shutdown p b).1.metrics.Dropped + 1
  ∧ (Pool.Submit (Pool.Shutdown p b).1 j w e).1.jobs = (Pool.Shutdown p b).1.jobs := by
  have hc := shutdown_closes h b
  unfold Pool.Submit
  simp [hc]

/-- C4 (witness): submitting to the demo pool right after a timed-out
shutdown. -/
theorem submit_after_shutdown_rejected_witness :
    (Pool.Shutdown demoPool true).1.closed = true
  ∧ (Pool.Submit (Pool.Shutdown demoPool true).1 demoJob false GoError.canceled).2
      = some ErrPoolClosed
  ∧ (Pool.Submit (Pool.Shutdown demoPool true).1 demoJob false GoError.canceled).1.metrics.Dropped
      = (Pool.Shutdown demoPool true).1.metrics.Dropped + 1
  ∧ (Pool.Submit (Pool.Shutdown demoPool true).1 demoJob false GoError.canceled).1.jobs
      = (Pool.Shutdown demoPool true).1.jobs :=
  submit_after_shutdown_rejected demoPool true rfl demoJob false GoError.canceled

/-- C5 (confirmed): a `Submit` on an open pool whose caller context ends
before the job can be enqueued returns an error wrapping the caller's
cancellation reason (matched by unwrapping), increments Dropped by one,
increments Submitted by one (the admission was attempted), and leaves the
queue untouched — the job is never delivered to a worker. -/
theorem submit_caller_cancelled (p : Pool) (h : p.closed = false)
    (j : Job) (e : GoError) :
    (Pool.Submit p j true e).2 = some (GoError.wrapped "submit cancelled" e)
  ∧ GoError.errorIs (GoError.wrapped "submit cancelled" e) e = true
  ∧ (Pool.Submit p j true e).1.metrics.Dropped = p.metrics.Dropped + 1
  ∧ (Pool.Submit p j true e).1.metrics.Submitted = p.metrics.Submitted + 1
  ∧ (Pool.Submit p j true e).1.jobs = p.jobs := by
  unfold Pool.Submit
  simp [h, errorIs_wrapped]

/-- C5 (witness): a cancelled submission on the freshly built demo pool. -/
theorem submit_caller_cancelled_witness :
    (Pool.Submit demoPool demoJob true GoError.canceled).2
      = some (GoError.wrapped "submit cancelled" GoError.canceled)
  ∧ GoError.errorIs (GoError.wrapped "submit cancelled" GoError.canceled)
      GoError.canceled = true
  ∧ (Pool.Submit demoPool demoJob true GoError.canceled).1.metrics.Dropped
      = demoPool.metrics.Dropped + 1
  ∧ (Pool.Submit demoPool demoJob true GoError.canceled).1.metrics.Submitted
      = demoPool.metrics.Submitted + 1
  ∧ (Pool.Submit demoPool demoJob true GoError.canceled).1.jobs = demoPool.jobs :=
  submit_caller_cancelled demoPool rfl demoJob GoError.canceled

/-- C6 (confirmed): the first `Shutdown` call returns `nil` exactly when all
workers exit before the timeout (`timedOut = false`), returns the
`ErrShutdownTimeout` sentinel exactly when the timeout elapsed first, and
broadcasts the shared cancellation signal on the timeout path and only
there. -/
theorem shutdown_first_call_outcome (p : Pool) (h : p.onceDone = false) (b : Bool) :
    ((Pool.Shutdown p b).2 = none ↔ b = false)
  ∧ ((Pool.Shutdown p b).2 = some ErrShutdownTimeout ↔ b = true)
  ∧ (Pool.Shutdown p b).1.workerCtxCancelled = (b || p.workerCtxCancelled) := by
  unfold Pool.Shutdown
  simp only [h, Bool.false_eq_true, if_false]
  cases b <;> simp

/-- C6 (witness): a timed-out first shutdown of the demo pool. -/
theorem shutdown_first_call_outcome_witness :
    ((Pool.Shutdown demoPool true).2 = none ↔ true = false)
  ∧ ((Pool.Shutdown demoPool true).2 = some ErrShutdownTimeout ↔ true = true)
  ∧ (Pool.Shutdown demoPool true).1.workerCtxCancelled
      = (true || demoPool.workerCtxCancelled) :=
  shutdown_first_call_outcome demoPool rfl true

/-- C7 (counterexample): construction can fail — with a negative queue
capacity, `withDefaults` leaves `QueueSize` untouched and
`make(chan Job, -1)` aborts the program, so `New ⟨0, -1, 0, none⟩` does not
return a pool. -/
theorem new_negative_queue_aborts : New ⟨0, -1, 0, none⟩ = none := rfl

/-- C7 (amended): for every configuration with queue capacity ≥ 0, `New`
returns a running pool (open, not shut down, cancellation not fired, empty
queue, zeroed counters), substituting worker count 1 when the given count is
≤ 0 and a 30 time-unit timeout when the given timeout is ≤ 0, and keeping the
queue capacity; for a negative queue capacity construction aborts instead of
returning a pool. -/
theorem new_nonnegative_queue_succeeds (cfg : Config) (h : 0 ≤ cfg.QueueSize) :
    New cfg = some
      { cfg := Config.withDefaults cfg
        jobs := []
        jobsClosed := false
        metrics := ⟨0, 0, 0, 0, 0⟩
        workerCtxCancelled := false
        onceDone := false
        closed := false
        inFlight := 0
        skipped := 0 }
  ∧ (Config.withDefaults cfg).Workers = (if cfg.Workers ≤ 0 then 1 else cfg.Workers)
  ∧ (Config.withDefaults cfg).QueueSize = cfg.QueueSize
  ∧ (Config.withDefaults cfg).ShutdownTimeout
      = (if cfg.ShutdownTimeout ≤ 0 then 30 * time.Second else cfg.ShutdownTimeout) := by
  have hq := withDefaults_QueueSize cfg
  refine ⟨?_, withDefaults_Workers cfg, hq, withDefaults_ShutdownTimeout cfg⟩
  unfold New
  dsimp only
  rw [if_neg (by omega)]

/-- C7 (witness): the all-zero configuration (queue capacity 0) yields a pool
with one worker and the default 30-second timeout. -/
theorem new_nonnegative_queue_succeeds_witness :
    New ⟨0, 0, 0, none⟩ = some
      { cfg := Config.withDefaults ⟨0, 0, 0, none⟩
        jobs := []
        jobsClosed := false
        metrics := ⟨0, 0, 0, 0, 0⟩
        workerCtxCancelled := false
        onceDone := false
        closed := false
        inFlight := 0
        skipped := 0 }
  ∧ (Config.withDefaults ⟨0, 0, 0, none⟩).Workers
      = (if (0 : Int) ≤ 0 then 1 else 0)
  ∧ (Config.withDefaults ⟨0, 0, 0, none⟩).QueueSize = 0
  ∧ (Config.withDefaults ⟨0, 0, 0, none⟩).ShutdownTimeout
      = (if (0 : Int) ≤ 0 then 30 * time.Second else 0) :=
  new_nonnegative_queue_succeeds ⟨0, 0, 0, none⟩ (by decide)

/-- C8 (confirmed): a `Submit` rejected because the pool is closed changes
only Dropped (by one) — Submitted, Started, Succeeded and Failed keep their
values, so closed-pool rejections are never counted as admission attempts. -/
theorem submit_closed_frame (p : Pool) (h : p.closed = true)
    (j : Job) (w : Bool) (e : GoError) :
    (Pool.Submit p j w e).1.metrics.Submitted = p.metrics.Submitted
  ∧ (Pool.Submit p j w e).1.metrics.Started = p.metrics.Started
  ∧ (Pool.Submit p j w e).1.metrics.Succeeded = p.metrics.Succeeded
  ∧ (Pool.Submit p j w e).1.metrics.Failed = p.metrics.Failed
  ∧ (Pool.Submit p j w e).1.metrics.Dropped = p.metrics.Dropped + 1 := by
  unfold Pool.Submit
  simp [h]

/-- C8 (witness): a rejected submission on the closed `skewedPool`. -/
theorem submit_closed_frame_witness :
    (Pool.Submit skewedPool demoJob false GoError.canceled).1.metrics.Submitted
      = skewedPool.metrics.Submitted
  ∧ (Pool.Submit skewedPool demoJob false GoError.canceled).1.metrics.Started
      = skewedPool.metrics.Started
  ∧ (Pool.Submit skewedPool demoJob false GoError.canceled).1.metrics.Succeeded
      = skewedPool.metrics.Succeeded
  ∧ (Pool.Submit skewedPool demoJob false GoError.canceled).1.metrics.Failed
      = skewedPool.metrics.Failed
  ∧ (Pool.Submit skewedPool demoJob false GoError.canceled).1.metrics.Dropped
      = skewedPool.metrics.Dropped + 1 :=
  submit_closed_frame skewedPool rfl demoJob false GoError.canceled

/-- C9 (confirmed): `Submit` returns exactly one of: `nil`, the
`ErrPoolClosed` sentinel, or a fresh error wrapping the caller context's
cancellation reason; the wrapping error is matched only by unwrapping to the
caller's error and is neither of the package's two sentinels — in particular
there is no queue-full error and no `SubmissionCancelled` sentinel. -/
theorem submit_result_classification (p : Pool) (j : Job) (w : Bool) (e : GoError) :
    ((Pool.Submit p j w e).2 = none ∨
     (Pool.Submit p j w e).2 = some ErrPoolClosed ∨
     (Pool.Submit p j w e).2 = some (GoError.wrapped "submit cancelled" e))
  ∧ GoError.errorIs (GoError.wrapped "submit cancelled" e) e = true
  ∧ GoError.wrapped "submit cancelled" e ≠ ErrPoolClosed
  ∧ GoError.wrapped "submit cancelled" e ≠ ErrShutdownTimeout := by
  refine ⟨?_, errorIs_wrapped _ e, by simp [ErrPoolClosed], by simp [ErrShutdownTimeout]⟩
  unfold Pool.Submit
  split
  · exact Or.inr (Or.inl rfl)
  · split
    · exact Or.inr (Or.inr rfl)
    · exact Or.inl rfl

/-- C10 (confirmed): `withDefaults` never writes through its receiver — the
receiver's final state equals its initial state field by field (the method
copies the receiver and mutates only the copy; `New` additionally takes its
`Config` argument by value), so the caller's configuration is unchanged after
`New`. -/
theorem withDefaults_preserves_receiver (c : Config) :
    (Config.withDefaultsState c).1 = c
  ∧ (Config.withDefaultsState c).1.Workers = c.Workers
  ∧ (Config.withDefaultsState c).1.QueueSize = c.QueueSize
  ∧ (Config.withDefaultsState c).1.ShutdownTimeout = c.ShutdownTimeout
  ∧ (Config.withDefaultsState c).1.Logger = c.Logger :=
  ⟨rfl, rfl, rfl, rfl, rfl⟩

end workerpool
